import Mathlib

/-!
Verification of the pve-answer-server answer-resolution pipeline
(`answer-server.py`): configuration loading, MAC-based override lookup,
config merging, strict-undefined template rendering, and TOML output
validation, shallowly embedded in Lean.

Modelling conventions:
* YAML documents are modelled as association lists with string keys
  (`ConfigMap`); a Python `dict` has unique keys, so theorems about merge
  semantics carry a `Nodup` hypothesis on the override's key list.
* Strings are compared at the `List Char` level (`lowerData`), which models
  Python's `str.lower()` / `str.startswith` on the ASCII inputs the server
  deals with and reduces well in the kernel.
* The directory scan `CONFIG_DIR.glob("*.yml")` is modelled as an explicit
  list of `(filename, parsed contents)` pairs in scan order; `load_yaml`'s
  "empty file becomes {}" fallback is absorbed into the parsed contents.
* Jinja2 rendering with `StrictUndefined` is modelled as substitution over a
  template given as a list of literal/variable segments, failing on the
  first variable that is not a key of the config.
* `tomlkit.parse` is an external library; its acceptance of a rendered
  document is modelled as an abstract boolean `tomlOK` carried in the
  environment, since only accept/reject matters to the server's control flow.
-/

namespace AnswerServer

/-- A YAML value: string scalar, boolean, null, or a nested mapping.
Only the shape matters for the merge claims; numbers are subsumed by `str`. -/
inductive Val where
  | str : String → Val
  | boolean : Bool → Val
  | null : Val
  | vmap : List (String × Val) → Val

/-- A parsed YAML document: a Python dict as an association list in
insertion order. -/
abbrev ConfigMap := List (String × Val)

/-- Python `d[k]` lookup (first occurrence; dict keys are unique anyway). -/
def lookup? : ConfigMap → String → Option Val
  | [], _ => none
  | (k', v) :: rest, k => if k' = k then some v else lookup? rest k

/-- Python `k in d`. -/
def containsKey (m : ConfigMap) (k : String) : Bool :=
  m.any (fun p => p.1 == k)

/-- Python `d[k] = v`: replace the value at an existing key in place,
otherwise append the new binding. -/
def setKey : ConfigMap → String → Val → ConfigMap
  | [], k, v => [(k, v)]
  | (k', v') :: rest, k, v =>
    if k' = k then (k', v) :: rest else (k', v') :: setKey rest k v

/-- Python `d.update(o)` (line 81, `final_config.update(mac_config)`):
set every binding of `o` into `d`, in order. -/
def updateCfg (d o : ConfigMap) : ConfigMap :=
  o.foldl (fun acc kv => setKey acc kv.1 kv.2) d

/-- The keys of a config, in order. -/
def keys (m : ConfigMap) : List String := m.map Prod.fst

/-- Lower-case a string at the character-list level; models Python
`str.lower()` on the ASCII strings involved. -/
def lowerData (s : String) : List Char := s.data.map Char.toLower

/-- The filename-vs-address test of line 110,
`filename.name.lower().startswith(mac)` with `mac` already lowered:
the lowered address is a prefix of the lowered full filename. -/
def nameMatches (mac name : String) : Bool :=
  List.isPrefixOf (lowerData mac) (lowerData name)

/-- `lookup_config_for_mac` (lines 106-112): scan the `*.yml` files of the
config directory in order and return the parsed contents of the first file
whose lowered name starts with the lowered address; `None` if no file
matches. -/
def lookup_config_for_mac : List (String × ConfigMap) → String → Option ConfigMap
  | [], _ => none
  | (name, cfg) :: rest, mac =>
    if nameMatches mac name then some cfg else lookup_config_for_mac rest mac

/-- One entry of the request's `network_interfaces` list; `mac` is the
optional `"mac"` field. -/
structure NIC where
  mac : Option String

/-- The parsed request body. -/
structure RequestData where
  network_interfaces : List NIC

/-- The MAC-search loop of `create_answer` (lines 66-77): scan interfaces in
request order, skip entries whose `mac` is missing or falsy (empty), and
stop at the first address for which `lookup_config_for_mac` finds a file. -/
def findMacConfig (dir : List (String × ConfigMap)) : List NIC → Option ConfigMap
  | [] => none
  | nic :: rest =>
    match nic.mac with
    | none => findMacConfig dir rest
    | some mac =>
      if mac = "" then findMacConfig dir rest
      else
        match lookup_config_for_mac dir mac with
        | some cfg => some cfg
        | none => findMacConfig dir rest

/-- One segment of the Jinja2 template: literal text or a `\x7b\x7b var \x7d\x7d`
variable reference. -/
inductive Seg where
  | lit : String → Seg
  | var : String → Seg

/-- The template, as parsed by the (black-box) template engine. -/
abbrev Template := List Seg

/-- The stringification the engine applies when substituting a value.
Its exact output for non-string scalars is engine detail no claim depends
on; string values substitute as themselves. -/
def valToString : Val → String
  | .str s => s
  | .boolean b => if b then "True" else "False"
  | .null => "None"
  | .vmap _ => "mapping"

/-- Jinja2 rendering under `StrictUndefined` (env of lines 27-30): substitute
each variable from the config, failing with the variable's name on the first
reference to a key absent from the config — never a silent empty
substitution. -/
def render (cfg : ConfigMap) : Template → Except String String
  | [] => .ok ""
  | .lit s :: rest => (render cfg rest).map (fun r => s ++ r)
  | .var n :: rest =>
    match lookup? cfg n with
    | none => .error n
    | some v => (render cfg rest).map (fun r => valToString v ++ r)

/-- The variables a template references. -/
def refVars (t : Template) : List String :=
  t.filterMap fun s => match s with | .var n => some n | .lit _ => none

/-- The classified errors `create_answer` can raise: Python `KeyError`
(missing mandatory field, line 89), `UndefinedError` (missing template
variable, lines 95-96), `ValueError` (invalid TOML output, line 102). -/
inductive AnswerError where
  | keyError : String → AnswerError
  | undefinedError : String → AnswerError
  | valueError : String → AnswerError

/-- The server's environment: the `*.yml` files of `./config` in scan order,
the parsed `defaults.yml`, the parsed template, and the TOML parser's
accept/reject verdict on rendered text (`tomlkit.parse`, black box). -/
structure Env where
  dir : List (String × ConfigMap)
  defaults : ConfigMap
  template : Template
  tomlOK : String → Bool

/-- `required_fields` of line 86. -/
def required_fields : List String := ["server_hostname", "server_address"]

/-- The mandatory-parameter loop of lines 87-89: the first required field
missing from the config, if any. -/
def checkRequired (cfg : ConfigMap) : List String → Option String
  | [] => none
  | f :: rest => if containsKey cfg f then checkRequired cfg rest else some f

/-- The merged configuration `create_answer` renders with (lines 61-83):
defaults, updated with the first matching MAC override if one was found. -/
def effectiveConfig (env : Env) (req : RequestData) : ConfigMap :=
  match findMacConfig env.dir req.network_interfaces with
  | some mc => updateCfg env.defaults mc
  | none => env.defaults

/-- `create_answer` (lines 61-104): build the effective config, enforce the
mandatory fields, render, and validate the rendered text as TOML. -/
def create_answer (env : Env) (req : RequestData) : Except AnswerError String :=
  let final_config := effectiveConfig env req
  match checkRequired final_config required_fields with
  | some f => .error (.keyError f)
  | none =>
    match render final_config env.template with
    | .error n => .error (.undefinedError n)
    | .ok text =>
      if env.tomlOK text then .ok text
      else .error (.valueError "invalid TOML")

/-- An HTTP response: status code and body. -/
structure HTTPResponse where
  status : Nat
  body : String

/-- The `/answer` handler's error mapping (lines 43-54) for a request body
that parsed: `ValueError`/`KeyError` → 400 "Config Validation Error",
`UndefinedError` → 500 "Template Error", success → 200 with the rendered
document as body. -/
def answer (env : Env) (req : RequestData) : HTTPResponse :=
  match create_answer env req with
  | .ok text => ⟨200, text⟩
  | .error (.keyError f) =>
    ⟨400, "Config Validation Error: missing mandatory configuration field " ++ f⟩
  | .error (.valueError m) => ⟨400, "Config Validation Error: " ++ m⟩
  | .error (.undefinedError n) => ⟨500, "Template Error: " ++ n⟩

/-- The file identifier of an override source as the spec words it: the
filename with a trailing `.yml` extension removed. Stated at the
`List Char` level like `lowerData`. -/
def stripYmlExt (d : List Char) : List Char :=
  if List.isSuffixOf ".yml".data d then d.take (d.length - 4) else d

/-- The matching relation exactly as the spec words it (for comparison with
the implemented `nameMatches`): the file's identifier — its name,
case-insensitively, ignoring extension — is a prefix of the normalized
(lowered) address string. -/
def specMatches (filename mac : String) : Bool :=
  List.isPrefixOf (stripYmlExt (lowerData filename)) (lowerData mac)

/-! Helper lemmas about the embedded operations. -/

theorem lookup?_eq_none_iff (m : ConfigMap) (k : String) :
    lookup? m k = none ↔ containsKey m k = false := by
  induction m with
  | nil => simp [lookup?, containsKey]
  | cons p rest ih =>
    obtain ⟨k', v⟩ := p
    by_cases h : k' = k <;> simp [lookup?, containsKey, h, ih]

theorem containsKey_iff_mem (m : ConfigMap) (k : String) :
    containsKey m k = true ↔ k ∈ keys m := by
  simp [containsKey, keys, List.any_eq_true, List.mem_map]

theorem lookup?_setKey (m : ConfigMap) (k q : String) (v : Val) :
    lookup? (setKey m k v) q = if q = k then some v else lookup? m q := by
  induction m with
  | nil =>
    simp only [setKey, lookup?]
    by_cases h : q = k
    · subst h; rw [if_pos rfl]
    · rw [if_neg h, if_neg (fun h' : k = q => h h'.symm)]
  | cons p rest ih =>
    obtain ⟨k', v'⟩ := p
    by_cases hk : k' = k
    · subst hk
      simp only [setKey, if_pos rfl, lookup?]
      by_cases hq : q = k'
      · subst hq; rw [if_pos rfl, if_pos rfl]
      · rw [if_neg hq, if_neg (fun h : k' = q => hq h.symm),
          if_neg (fun h : k' = q => hq h.symm)]
    · simp only [setKey, if_neg hk, lookup?]
      by_cases hq : k' = q
      · rw [if_pos hq, if_pos hq, if_neg (fun h : q = k => hk (hq.trans h))]
      · rw [if_neg hq, if_neg hq, ih]

theorem lookup?_updateCfg (d o : ConfigMap) (q : String) (h : (keys o).Nodup) :
    lookup? (updateCfg d o) q =
      if containsKey o q then lookup? o q else lookup? d q := by
  induction o generalizing d with
  | nil => simp [updateCfg, containsKey, List.foldl]
  | cons p o' ih =>
    obtain ⟨k, v⟩ := p
    have hcns : keys ((k, v) :: o') = k :: keys o' := rfl
    rw [hcns] at h
    obtain ⟨hk, hnd⟩ := List.nodup_cons.mp h
    have hstep : updateCfg d ((k, v) :: o') = updateCfg (setKey d k v) o' := rfl
    rw [hstep, ih _ hnd]
    by_cases hq : q = k
    · subst hq
      have hco' : containsKey o' q = false := by
        cases hc : containsKey o' q
        · rfl
        · exact absurd ((containsKey_iff_mem o' q).mp hc) hk
      rw [hco']
      have h1 : containsKey ((q, v) :: o') q = true := by simp [containsKey]
      have h2 : lookup? ((q, v) :: o') q = some v := by simp [lookup?]
      rw [h1, h2]
      simp [lookup?_setKey]
    · have hcons : containsKey ((k, v) :: o') q = containsKey o' q := by
        show ((k == q) || containsKey o' q) = containsKey o' q
        have hne : (k == q) = false := by
          simp only [beq_eq_false_iff_ne]
          exact fun h' => hq h'.symm
        rw [hne, Bool.false_or]
      have hlk : lookup? ((k, v) :: o') q = lookup? o' q := by
        simp only [lookup?]
        rw [if_neg (fun h' : k = q => hq h'.symm)]
      rw [hcons, hlk]
      cases hc : containsKey o' q
      · simp only [Bool.false_eq_true, if_false]
        rw [lookup?_setKey, if_neg hq]
      · simp

theorem render_error_of_missing (cfg : ConfigMap) (t : Template) (v : String)
    (hv : v ∈ refVars t) (habs : containsKey cfg v = false) :
    ∃ n, render cfg t = .error n ∧ containsKey cfg n = false := by
  induction t with
  | nil => simp [refVars] at hv
  | cons s rest ih =>
    cases s with
    | lit txt =>
      have hv' : v ∈ refVars rest := by simpa [refVars] using hv
      obtain ⟨n, hn, hc⟩ := ih hv'
      exact ⟨n, by simp [render, hn, Except.map], hc⟩
    | var w =>
      cases hw : lookup? cfg w with
      | none =>
        refine ⟨w, by simp [render, hw], ?_⟩
        exact (lookup?_eq_none_iff cfg w).mp hw
      | some val =>
        have hv' : v ∈ refVars rest := by
          rcases (by simpa [refVars] using hv : v = w ∨ v ∈ refVars rest) with h | h
          · subst h
            rw [(lookup?_eq_none_iff cfg v).mpr habs] at hw
            cases hw
          · exact h
        obtain ⟨n, hn, hc⟩ := ih hv'
        exact ⟨n, by simp [render, hw, hn, Except.map], hc⟩

theorem findMacConfig_append_of_skip (dir : List (String × ConfigMap))
    (pre l : List NIC)
    (hpre : ∀ n ∈ pre, ∀ m, n.mac = some m → m ≠ "" →
      lookup_config_for_mac dir m = none) :
    findMacConfig dir (pre ++ l) = findMacConfig dir l := by
  induction pre with
  | nil => rfl
  | cons n pre' ih =>
    have hrest : ∀ n' ∈ pre', ∀ m, n'.mac = some m → m ≠ "" →
        lookup_config_for_mac dir m = none :=
      fun n' hn' => hpre n' (List.mem_cons_of_mem _ hn')
    cases hmac : n.mac with
    | none => simp [findMacConfig, hmac, ih hrest]
    | some m =>
      by_cases hm : m = ""
      · simp [findMacConfig, hmac, hm, ih hrest]
      · have hmiss := hpre n (List.mem_cons_self _ _) m hmac hm
        simp [findMacConfig, hmac, hm, hmiss, ih hrest]

theorem lookup_config_for_mac_eq_find? (dir : List (String × ConfigMap))
    (mac : String) :
    lookup_config_for_mac dir mac =
      (dir.find? fun f => nameMatches mac f.1).map Prod.snd := by
  induction dir with
  | nil => rfl
  | cons p rest ih =>
    obtain ⟨name, cfg⟩ := p
    by_cases h : nameMatches mac name
    · simp [lookup_config_for_mac, List.find?, h]
    · simp [lookup_config_for_mac, List.find?, h, ih]

theorem lookup_isSome_iff (dir : List (String × ConfigMap)) (mac : String) :
    (lookup_config_for_mac dir mac).isSome = true ↔
      ∃ name cfg, (name, cfg) ∈ dir ∧ nameMatches mac name = true := by
  induction dir with
  | nil => simp [lookup_config_for_mac]
  | cons p rest ih =>
    obtain ⟨name, cfg⟩ := p
    by_cases h : nameMatches mac name = true
    · simp only [lookup_config_for_mac, if_pos h, Option.isSome_some]
      exact ⟨fun _ => ⟨name, cfg, List.mem_cons_self _ _, h⟩, fun _ => by simp⟩
    · simp only [lookup_config_for_mac, if_neg h]
      rw [ih]
      constructor
      · rintro ⟨n, c, hm, hp⟩
        exact ⟨n, c, List.mem_cons_of_mem _ hm, hp⟩
      · rintro ⟨n, c, hm, hp⟩
        rcases List.mem_cons.mp hm with heq | hm'
        · obtain ⟨h1, h2⟩ := Prod.mk.injEq .. ▸ heq
          exact absurd (h1 ▸ hp) h
        · exact ⟨n, c, hm', hp⟩

/-! Claim theorems. -/

/-- C1 (counterexample): the claim says an override file is selected iff the
file's identifier (name, case-insensitively, ignoring extension) is a prefix
of the normalized address string. For the directory containing only
`aabbcc.yml` and the address `aabbccddeeff`, the spec relation holds
(`aabbcc` is a prefix of `aabbccddeeff`), yet `lookup_config_for_mac`
selects nothing: the implemented test is the reversed relation. -/
theorem c1_counterexample :
    specMatches "aabbcc.yml" "aabbccddeeff" = true ∧
    lookup_config_for_mac [("aabbcc.yml", [("k", Val.str "v")])] "aabbccddeeff"
      = none :=
  ⟨by decide, rfl⟩

/-- C1 (amended): a file is selected as a match iff the normalized (lowered)
address string is a prefix of the file's lowered full name, extension
included; the lookup returns the contents of the first such file in scan
order. -/
theorem c1_lookup_matches (dir : List (String × ConfigMap)) (mac : String) :
    lookup_config_for_mac dir mac =
      (dir.find? fun f =>
        List.isPrefixOf (lowerData mac) (lowerData f.1)).map Prod.snd ∧
    ((lookup_config_for_mac dir mac).isSome = true ↔
      ∃ name cfg, (name, cfg) ∈ dir ∧
        List.isPrefixOf (lowerData mac) (lowerData name) = true) :=
  ⟨lookup_config_for_mac_eq_find? dir mac, lookup_isSome_iff dir mac⟩

/-- C5: interfaces are scanned in request order, entries without a usable
hardware address are skipped, the override applied is that of the first
address with a matching override source, and once a match is found the tail
of the interface list is never consulted (the result is the same for any
tail). -/
theorem c5_first_match (env : Env) (pre rest rest2 : List NIC) (nic : NIC)
    (mac : String) (c : ConfigMap)
    (hmac : nic.mac = some mac) (hne : mac ≠ "")
    (hpre : ∀ n ∈ pre, ∀ m, n.mac = some m → m ≠ "" →
      lookup_config_for_mac env.dir m = none)
    (hhit : lookup_config_for_mac env.dir mac = some c) :
    findMacConfig env.dir (pre ++ nic :: rest) = some c ∧
    findMacConfig env.dir (pre ++ nic :: rest) =
      findMacConfig env.dir (pre ++ nic :: rest2) ∧
    effectiveConfig env ⟨pre ++ nic :: rest⟩ = updateCfg env.defaults c := by
  have hskip := findMacConfig_append_of_skip env.dir pre (nic :: rest) hpre
  have hskip2 := findMacConfig_append_of_skip env.dir pre (nic :: rest2) hpre
  have hhead : ∀ l : List NIC, findMacConfig env.dir (nic :: l) = some c := by
    intro l
    simp [findMacConfig, hmac, hne, hhit]
  have h1 : findMacConfig env.dir (pre ++ nic :: rest) = some c := by
    rw [hskip]; exact hhead rest
  refine ⟨h1, ?_, ?_⟩
  · rw [h1, hskip2, hhead]
  · simp [effectiveConfig, h1]

/-- C6: applying an override is a shallow merge: at every key, the effective
config holds the override's value when the override binds the key (the value
replaces the default's wholesale, nested or not), the default's value when
only the default binds it, and nothing when neither does. -/
theorem c6_merge_semantics (d o : ConfigMap) (q : String)
    (h : (keys o).Nodup) :
    lookup? (updateCfg d o) q =
      if containsKey o q then lookup? o q else lookup? d q :=
  lookup?_updateCfg d o q h

/-- C7: when no interface address matches any override source, the effective
configuration equals the default configuration exactly, and the request
proceeds on the defaults-only path — the same outcome as a request with no
interfaces at all, not an error. -/
theorem c7_no_match_defaults (env : Env) (req : RequestData)
    (h : findMacConfig env.dir req.network_interfaces = none) :
    effectiveConfig env req = env.defaults ∧
    create_answer env req = create_answer env ⟨[]⟩ ∧
    answer env req = answer env ⟨[]⟩ := by
  have heff : effectiveConfig env req = env.defaults := by
    simp [effectiveConfig, h]
  have heff0 : effectiveConfig env ⟨[]⟩ = env.defaults := by
    simp [effectiveConfig, findMacConfig]
  have hca : create_answer env req = create_answer env ⟨[]⟩ := by
    simp [create_answer, heff, heff0]
  exact ⟨heff, hca, by simp [answer, hca]⟩

/-- C9: request handling is deterministic — equal parsed request bodies
against the same environment (config files, template, TOML verdicts) yield
the same response, and in particular byte-identical response bodies. -/
theorem c9_deterministic (env : Env) (r1 r2 : RequestData) (h : r1 = r2) :
    answer env r1 = answer env r2 ∧
    (answer env r1).body = (answer env r2).body := by
  subst h
  exact ⟨rfl, rfl⟩

/-- C10: `defaults.yml` lives in the directory the override lookup scans, so
when it is the first scanned file, any address whose lowered form is a
prefix of the name `defaults.yml` (such as `d` or `de`) makes the lookup
return the default configuration file's contents as a matching override. -/
theorem c10_defaults_file_matches (rest : List (String × ConfigMap))
    (dc : ConfigMap) (mac : String)
    (h : List.isPrefixOf (lowerData mac) (lowerData "defaults.yml") = true) :
    lookup_config_for_mac (("defaults.yml", dc) :: rest) mac = some dc := by
  have hm : nameMatches mac "defaults.yml" = true := h
  simp [lookup_config_for_mac, hm]

/-- Environment for the C2 scenario: override file `aabbcc.yml` setting
`server_hostname` to `custom`, and the spec's example defaults. -/
def envC2 : Env :=
  { dir := [("aabbcc.yml", [("server_hostname", Val.str "custom")])]
    defaults := [("server_hostname", Val.str "host1"),
                 ("server_address", Val.str "10.0.0.1")]
    template := [Seg.lit "x = 1"]
    tomlOK := fun _ => true }

/-- The C2 scenario's request: one interface with `mac` `AA:BB:CC`. -/
def reqC2 : RequestData := ⟨[⟨some "AA:BB:CC"⟩]⟩

/-- The C2 request amended to a colon-free address. -/
def reqC2A : RequestData := ⟨[⟨some "AABBCC"⟩]⟩

/-- C2 (counterexample): with the override file `aabbcc.yml` containing
`server_hostname: custom` and the request address `AA:BB:CC`, the merged
config's `server_hostname` stays at the default `host1` — the lowered
address `aa:bb:cc` is not a prefix of `aabbcc.yml`, so no override file
matches at all — refuting the claimed value `custom`. -/
theorem c2_counterexample :
    lookup? (effectiveConfig envC2 reqC2) "server_hostname"
      = some (Val.str "host1") ∧
    ("host1" : String) ≠ "custom" ∧
    findMacConfig envC2.dir reqC2.network_interfaces = none :=
  ⟨rfl, by decide, rfl⟩

/-- C2 (amended): for the request address `AABBCC` (colon-free, so its
lowered form is a prefix of `aabbcc.yml`), the merged configuration has
`server_hostname` equal to `custom`, and every other key is unchanged from
the defaults. -/
theorem c2_override_applied (k : String) (hk : k ≠ "server_hostname") :
    lookup? (effectiveConfig envC2 reqC2A) "server_hostname"
      = some (Val.str "custom") ∧
    lookup? (effectiveConfig envC2 reqC2A) k = lookup? envC2.defaults k := by
  refine ⟨rfl, ?_⟩
  have he : effectiveConfig envC2 reqC2A =
      [("server_hostname", Val.str "custom"),
       ("server_address", Val.str "10.0.0.1")] := rfl
  have hd : envC2.defaults =
      [("server_hostname", Val.str "host1"),
       ("server_address", Val.str "10.0.0.1")] := rfl
  rw [he, hd]
  simp only [lookup?]
  rw [if_neg (fun h : "server_hostname" = k => hk h.symm),
    if_neg (fun h : "server_hostname" = k => hk h.symm)]

/-- C2 witness: the amended theorem applied at the key `server_address`. -/
theorem c2_override_applied_witness :
    ("server_address" : String) ≠ "server_hostname" ∧
    (lookup? (effectiveConfig envC2 reqC2A) "server_hostname"
        = some (Val.str "custom") ∧
      lookup? (effectiveConfig envC2 reqC2A) "server_address"
        = lookup? envC2.defaults "server_address") :=
  ⟨by decide, c2_override_applied "server_address" (by decide)⟩

/-- Environment for C3: valid defaults, a fixed-text template, and a TOML
parser verdict that rejects every document. -/
def envC3 : Env :=
  { dir := []
    defaults := [("server_hostname", Val.str "h"),
                 ("server_address", Val.str "a")]
    template := [Seg.lit "not toml"]
    tomlOK := fun _ => false }

/-- C3 (counterexample): when the rendered text is not valid TOML, the
handler catches the resulting `ValueError` in its `(ValueError, KeyError)`
clause and answers with HTTP 400, not the claimed 500-class status. -/
theorem c3_counterexample :
    create_answer envC3 ⟨[]⟩ = .error (.valueError "invalid TOML") ∧
    (answer envC3 ⟨[]⟩).status = 400 ∧
    (answer envC3 ⟨[]⟩).status ≠ 500 :=
  ⟨rfl, rfl, by decide⟩

/-- C3 (amended): if the rendered text is not valid TOML, the request fails
with a 400-class error (the `ValueError` is handled by the validation-error
clause), and the rendered document is never returned: the response is the
fixed error response, not the document. -/
theorem c3_invalid_toml_rejected (env : Env) (req : RequestData)
    (text : String)
    (h1 : checkRequired (effectiveConfig env req) required_fields = none)
    (h2 : render (effectiveConfig env req) env.template = .ok text)
    (h3 : env.tomlOK text = false) :
    create_answer env req = .error (.valueError "invalid TOML") ∧
    answer env req = ⟨400, "Config Validation Error: invalid TOML"⟩ := by
  have hc : create_answer env req = .error (.valueError "invalid TOML") := by
    simp [create_answer, h1, h2, h3]
  exact ⟨hc, by simp [answer, hc]⟩

/-- C3 witness: the amended theorem applied to `envC3` and the empty
request, whose template renders to `not toml`. -/
theorem c3_invalid_toml_rejected_witness :
    checkRequired (effectiveConfig envC3 ⟨[]⟩) required_fields = none ∧
    render (effectiveConfig envC3 ⟨[]⟩) envC3.template = .ok "not toml" ∧
    envC3.tomlOK "not toml" = false ∧
    (create_answer envC3 ⟨[]⟩ = .error (.valueError "invalid TOML") ∧
      answer envC3 ⟨[]⟩ = ⟨400, "Config Validation Error: invalid TOML"⟩) :=
  ⟨rfl, rfl, rfl, c3_invalid_toml_rejected envC3 ⟨[]⟩ "not toml" rfl rfl rfl⟩

/-- Environment refuting C4's non-emptiness clause: both mandatory keys are
present but bound to empty strings. -/
def envC4e : Env :=
  { dir := []
    defaults := [("server_hostname", Val.str ""),
                 ("server_address", Val.str "")]
    template := [Seg.lit "a = 1"]
    tomlOK := fun _ => true }

/-- C4 (counterexample): the mandatory-field check tests presence only
(`field not in final_config`), not non-emptiness: with `server_hostname`
and `server_address` both present as empty strings, the request does not
fail — rendering proceeds and the document is returned with HTTP 200 —
refuting the claim that the configuration must contain non-empty values. -/
theorem c4_counterexample :
    lookup? (effectiveConfig envC4e ⟨[]⟩) "server_hostname"
      = some (Val.str "") ∧
    lookup? (effectiveConfig envC4e ⟨[]⟩) "server_address"
      = some (Val.str "") ∧
    create_answer envC4e ⟨[]⟩ = .ok "a = 1" ∧
    (answer envC4e ⟨[]⟩).status = 200 :=
  ⟨rfl, rfl, rfl, rfl⟩

/-- C4 (amended): the effective configuration must contain the keys
`server_hostname` and `server_address` (presence only; empty values pass);
if either key is absent, the request fails with a `KeyError` for the first
missing field, mapped to HTTP 400, rendering is not attempted (the outcome
is the same for every template), and no document is returned. -/
theorem c4_mandatory_fields (env : Env) (req : RequestData)
    (h : containsKey (effectiveConfig env req) "server_hostname" = false ∨
         containsKey (effectiveConfig env req) "server_address" = false) :
    ∃ f, (f = "server_hostname" ∨ f = "server_address") ∧
      containsKey (effectiveConfig env req) f = false ∧
      (∀ tpl : Template, create_answer { env with template := tpl } req =
        .error (.keyError f)) ∧
      (answer env req).status = 400 ∧
      ∀ text, create_answer env req ≠ .ok text := by
  cases hhost : containsKey (effectiveConfig env req) "server_hostname" with
  | false =>
    have hall : ∀ tpl : Template,
        create_answer { env with template := tpl } req =
          .error (.keyError "server_hostname") := by
      intro tpl
      have heq : effectiveConfig { env with template := tpl } req =
          effectiveConfig env req := rfl
      have hck : checkRequired
          (effectiveConfig { env with template := tpl } req) required_fields
          = some "server_hostname" := by
        rw [heq]
        simp [checkRequired, required_fields, hhost]
      simp [create_answer, hck]
    have hca : create_answer env req = .error (.keyError "server_hostname") :=
      hall env.template
    refine ⟨"server_hostname", Or.inl rfl, hhost, hall, ?_, ?_⟩
    · simp [answer, hca]
    · intro text htext
      rw [hca] at htext
      exact Except.noConfusion htext
  | true =>
    have haddr : containsKey (effectiveConfig env req) "server_address"
        = false := by
      rcases h with h | h
      · rw [hhost] at h
        exact Bool.noConfusion h
      · exact h
    have hall : ∀ tpl : Template,
        create_answer { env with template := tpl } req =
          .error (.keyError "server_address") := by
      intro tpl
      have heq : effectiveConfig { env with template := tpl } req =
          effectiveConfig env req := rfl
      have hck : checkRequired
          (effectiveConfig { env with template := tpl } req) required_fields
          = some "server_address" := by
        rw [heq]
        simp [checkRequired, required_fields, hhost, haddr]
      simp [create_answer, hck]
    have hca : create_answer env req = .error (.keyError "server_address") :=
      hall env.template
    refine ⟨"server_address", Or.inr rfl, haddr, hall, ?_, ?_⟩
    · simp [answer, hca]
    · intro text htext
      rw [hca] at htext
      exact Except.noConfusion htext

/-- Environment for the C4 witness: defaults lacking `server_address`. -/
def envC4 : Env :=
  { dir := []
    defaults := [("server_hostname", Val.str "h")]
    template := [Seg.lit "a = 1"]
    tomlOK := fun _ => true }

/-- C4 witness: the amended theorem applied to an environment whose merged
config lacks `server_address`. -/
theorem c4_mandatory_fields_witness :
    containsKey (effectiveConfig envC4 ⟨[]⟩) "server_address" = false ∧
    ∃ f, (f = "server_hostname" ∨ f = "server_address") ∧
      containsKey (effectiveConfig envC4 ⟨[]⟩) f = false ∧
      (∀ tpl : Template, create_answer { envC4 with template := tpl } ⟨[]⟩ =
        .error (.keyError f)) ∧
      (answer envC4 ⟨[]⟩).status = 400 ∧
      ∀ text, create_answer envC4 ⟨[]⟩ ≠ .ok text :=
  ⟨by decide, c4_mandatory_fields envC4 ⟨[]⟩ (Or.inr (by decide))⟩

/-- C8: rendering is strict — if the template references a variable absent
from the effective configuration (and the mandatory fields are present, so
rendering is reached), the request fails with an `UndefinedError` naming an
absent key, mapped to HTTP 500, and no document is returned: there is no
silent empty substitution. -/
theorem c8_strict_undefined (env : Env) (req : RequestData) (v : String)
    (h1 : checkRequired (effectiveConfig env req) required_fields = none)
    (hv : v ∈ refVars env.template)
    (habs : containsKey (effectiveConfig env req) v = false) :
    ∃ n, containsKey (effectiveConfig env req) n = false ∧
      create_answer env req = .error (.undefinedError n) ∧
      (answer env req).status = 500 ∧
      ∀ text, create_answer env req ≠ .ok text := by
  obtain ⟨n, hn, hcn⟩ :=
    render_error_of_missing (effectiveConfig env req) env.template v hv habs
  have hca : create_answer env req = .error (.undefinedError n) := by
    simp [create_answer, h1, hn]
  refine ⟨n, hcn, hca, by simp [answer, hca], ?_⟩
  intro text htext
  rw [hca] at htext
  exact Except.noConfusion htext

/-- Environment for the C8 witness: a template referencing a key the
defaults do not define. -/
def envC8 : Env :=
  { dir := []
    defaults := [("server_hostname", Val.str "h"),
                 ("server_address", Val.str "a")]
    template := [Seg.var "missing_key"]
    tomlOK := fun _ => true }

/-- C8 witness: the theorem applied to `envC8`, whose template references
`missing_key`. -/
theorem c8_strict_undefined_witness :
    checkRequired (effectiveConfig envC8 ⟨[]⟩) required_fields = none ∧
    "missing_key" ∈ refVars envC8.template ∧
    containsKey (effectiveConfig envC8 ⟨[]⟩) "missing_key" = false ∧
    ∃ n, containsKey (effectiveConfig envC8 ⟨[]⟩) n = false ∧
      create_answer envC8 ⟨[]⟩ = .error (.undefinedError n) ∧
      (answer envC8 ⟨[]⟩).status = 500 ∧
      ∀ text, create_answer envC8 ⟨[]⟩ ≠ .ok text :=
  ⟨rfl, by simp [refVars, envC8], by decide,
    c8_strict_undefined envC8 ⟨[]⟩ "missing_key" rfl
      (by simp [refVars, envC8]) (by decide)⟩

/-- Environment for the C5 witness: two override files, both reachable by
some address. -/
def envC5 : Env :=
  { dir := [("aabbcc.yml", [("server_hostname", Val.str "custom")]),
            ("ddeeff.yml", [("server_hostname", Val.str "other")])]
    defaults := [("server_hostname", Val.str "host1"),
                 ("server_address", Val.str "10.0.0.1")]
    template := [Seg.lit "x = 1"]
    tomlOK := fun _ => true }

/-- C5 witness: the theorem applied to a request whose first two interfaces
are skipped (no address / no matching file), whose third matches
`aabbcc.yml`, and whose fourth would match `ddeeff.yml` but is never
consulted. -/
theorem c5_first_match_witness :
    lookup_config_for_mac envC5.dir "aabbcc"
      = some [("server_hostname", Val.str "custom")] ∧
    (findMacConfig envC5.dir
        ([⟨none⟩, ⟨some "zz"⟩] ++ (⟨some "aabbcc"⟩ : NIC) :: [⟨some "ddeeff"⟩])
        = some [("server_hostname", Val.str "custom")] ∧
      findMacConfig envC5.dir
          ([⟨none⟩, ⟨some "zz"⟩] ++ (⟨some "aabbcc"⟩ : NIC) :: [⟨some "ddeeff"⟩])
        = findMacConfig envC5.dir
            ([⟨none⟩, ⟨some "zz"⟩] ++ (⟨some "aabbcc"⟩ : NIC) :: []) ∧
      effectiveConfig envC5
          ⟨[⟨none⟩, ⟨some "zz"⟩] ++ (⟨some "aabbcc"⟩ : NIC) :: [⟨some "ddeeff"⟩]⟩
        = updateCfg envC5.defaults [("server_hostname", Val.str "custom")]) :=
  ⟨rfl,
    c5_first_match envC5 [⟨none⟩, ⟨some "zz"⟩] [⟨some "ddeeff"⟩] []
      ⟨some "aabbcc"⟩ "aabbcc" [("server_hostname", Val.str "custom")] rfl
      (by decide)
      (by
        intro n hn m hm hne
        rcases List.mem_cons.mp hn with rfl | hn'
        · exact Option.noConfusion hm
        · rcases List.mem_cons.mp hn' with rfl | hn''
          · cases hm; rfl
          · exact absurd hn'' (List.not_mem_nil _))
      rfl⟩

/-- C6 witness: the merge theorem applied at the colliding key `b`, whose
default value is a nested mapping that the override's scalar replaces
wholesale. -/
theorem c6_merge_semantics_witness :
    (keys [("b", Val.str "2"), ("c", Val.str "3")]).Nodup ∧
    lookup? (updateCfg
        [("a", Val.str "1"), ("b", Val.vmap [("x", Val.str "0")])]
        [("b", Val.str "2"), ("c", Val.str "3")]) "b"
      = (if containsKey [("b", Val.str "2"), ("c", Val.str "3")] "b"
          then lookup? [("b", Val.str "2"), ("c", Val.str "3")] "b"
          else lookup?
            [("a", Val.str "1"), ("b", Val.vmap [("x", Val.str "0")])] "b") :=
  ⟨by decide,
    c6_merge_semantics [("a", Val.str "1"), ("b", Val.vmap [("x", Val.str "0")])]
      [("b", Val.str "2"), ("c", Val.str "3")] "b" (by decide)⟩

/-- Environment for the C7 witness: one override file no request address
below matches. -/
def envC7 : Env :=
  { dir := [("aabbcc.yml", [("server_hostname", Val.str "custom")])]
    defaults := [("server_hostname", Val.str "host1"),
                 ("server_address", Val.str "10.0.0.1")]
    template := [Seg.lit "x = 1"]
    tomlOK := fun _ => true }

/-- The C7 witness request: one interface whose address matches no file. -/
def reqC7 : RequestData := ⟨[⟨some "ff00ff"⟩]⟩

/-- C7 witness: the theorem applied to a request with a non-matching
address. -/
theorem c7_no_match_defaults_witness :
    findMacConfig envC7.dir reqC7.network_interfaces = none ∧
    (effectiveConfig envC7 reqC7 = envC7.defaults ∧
      create_answer envC7 reqC7 = create_answer envC7 ⟨[]⟩ ∧
      answer envC7 reqC7 = answer envC7 ⟨[]⟩) :=
  ⟨rfl, c7_no_match_defaults envC7 reqC7 rfl⟩

/-- Environment for the C9 witness. -/
def envC9 : Env :=
  { dir := []
    defaults := [("server_hostname", Val.str "h"),
                 ("server_address", Val.str "a")]
    template := [Seg.lit "x = 1"]
    tomlOK := fun _ => true }

/-- C9 witness: the determinism theorem applied to two equal concrete
requests. -/
theorem c9_deterministic_witness :
    (⟨[⟨some "aabbcc"⟩]⟩ : RequestData) = (⟨[⟨some "aabbcc"⟩]⟩ : RequestData) ∧
    (answer envC9 ⟨[⟨some "aabbcc"⟩]⟩ = answer envC9 ⟨[⟨some "aabbcc"⟩]⟩ ∧
      (answer envC9 ⟨[⟨some "aabbcc"⟩]⟩).body
        = (answer envC9 ⟨[⟨some "aabbcc"⟩]⟩).body) :=
  ⟨rfl, c9_deterministic envC9 ⟨[⟨some "aabbcc"⟩]⟩ ⟨[⟨some "aabbcc"⟩]⟩ rfl⟩

/-- C10 witness: with the config directory holding only `defaults.yml`, the
address `d` makes the lookup return the default file's contents as an
override. -/
theorem c10_defaults_file_matches_witness :
    List.isPrefixOf (lowerData "d") (lowerData "defaults.yml") = true ∧
    lookup_config_for_mac
        [("defaults.yml", [("server_hostname", Val.str "host1")])] "d"
      = some [("server_hostname", Val.str "host1")] :=
  ⟨by decide,
    c10_defaults_file_matches [] [("server_hostname", Val.str "host1")] "d"
      (by decide)⟩

end AnswerServer
